import Mathlib

/-!
Shallow embedding of the song-recommendation pipeline
(`recommendation_service.py`, `analytics.py`) and proofs about it.

Strings are modelled as `List Char`; machine floats of the source are
modelled as `ℚ` with Python's banker's rounding made explicit where the
source rounds.  External collaborators (the text-completion API, the
video-search API, the analytics sink, the playlist fetchers) are passed
in as explicit oracle values, so an exception raised by a collaborator
is an `Except.error` value of the oracle.
-/

deriving instance DecidableEq for Except

namespace SongSuggest

/-! ### Python string primitives -/

/-- Python `str.lower()` restricted to ASCII letters (the only characters
the normalizations below can keep). -/
def pyLowerChar (c : Char) : Char :=
  if 'A' ≤ c ∧ c ≤ 'Z' then Char.ofNat (c.toNat + 32) else c

def pyLower (s : List Char) : List Char := s.map pyLowerChar

/-- Strip characters satisfying `p` from both ends, as Python `str.strip`. -/
def pyStripP (p : Char → Bool) (s : List Char) : List Char :=
  ((s.dropWhile p).reverse.dropWhile p).reverse

/-- Python `str.strip()` (whitespace from both ends). -/
def pyStripWs (s : List Char) : List Char := pyStripP Char.isWhitespace s

/-- The double-quote character (`'"'` in the source's `strip('"')`). -/
def dquote : Char := Char.ofNat 34

/-- The single-quote character used when rendering track lines. -/
def squote : Char := Char.ofNat 39

/-- Prefix of `s` before the first occurrence of `sep`
(Python `s.split(sep)[0]`). -/
def splitFirst (sep : List Char) : List Char → List Char
  | [] => []
  | c :: rest => if sep.isPrefixOf (c :: rest) then [] else c :: splitFirst sep rest

/-- Split `s` on every occurrence of `sep` (Python `s.split(sep)` for a
non-empty separator). -/
def splitAll (sep : List Char) (s : List Char) : List (List Char) :=
  go s [] []
where
  go : List Char → List Char → List (List Char) → List (List Char)
    | [], cur, acc => (acc ++ [cur.reverse])
    | c :: rest, cur, acc =>
      if h : sep.isPrefixOf (c :: rest) ∧ sep ≠ [] then
        go ((c :: rest).drop sep.length) [] (acc ++ [cur.reverse])
      else
        go rest (c :: cur) acc
  termination_by s _ _ => s.length
  decreasing_by
    · simp only [List.length_drop, List.length_cons]
      have : sep.length ≠ 0 := by
        intro hlen
        exact h.2 (List.eq_nil_of_length_eq_zero hlen)
      omega
    · simp

/-- Embeds `re.sub(r"[^a-z0-9]", "", s)`: keep only lower-case ASCII letters and digits. -/
def stripNonAlnum (s : List Char) : List Char :=
  s.filter (fun c => ('a' ≤ c ∧ c ≤ 'z') ∨ ('0' ≤ c ∧ c ≤ '9'))

/-! ### Cost model (`MODEL_PRICING`, `_calculate_cost`) -/

structure Pricing where
  input : ℚ
  output : ℚ
deriving DecidableEq

/-- The `MODEL_PRICING` table from the source (dollars per 1e6 tokens). -/
def MODEL_PRICING : List (String × Pricing) :=
  [("gpt-4", ⟨3, 12⟩), ("gpt-3.5-turbo", ⟨1/2, 3/2⟩)]

structure Usage where
  prompt_tokens : ℕ
  completion_tokens : ℕ
deriving DecidableEq

/-- Embeds `_calculate_cost`: `MODEL_PRICING.get(model, MODEL_PRICING.get("gpt-3.5-turbo"))`
then `prompt_tokens/1e6*input + completion_tokens/1e6*output`. -/
def calculate_cost (usage : Usage) (model : String) : ℚ :=
  match (MODEL_PRICING.lookup model).or (MODEL_PRICING.lookup "gpt-3.5-turbo") with
  | some pricing =>
      (usage.prompt_tokens : ℚ) / 1000000 * pricing.input
        + (usage.completion_tokens : ℚ) / 1000000 * pricing.output
  | none => 0

/-! ### Duplicate filter (`fuzz.ratio` and the check in `_query_model`)

`fuzzywuzzy.fuzz.ratio` with the `python-Levenshtein` backend:
`round(100 * (lensum - dist) / lensum)` where `dist` is the Levenshtein
distance with substitution cost 2 (so only insertions and deletions
matter for the optimum), and `round` is Python's round-half-to-even. -/

/-- Levenshtein distance with substitution cost 2 (indel distance), written
with explicit fuel so that it is structurally recursive.  Every recursive
call shrinks the total length by at least one while the fuel shrinks by
exactly one, so fuel `xs.length + ys.length` never runs out. -/
def indelGo : ℕ → List Char → List Char → ℕ
  | _, [], ys => ys.length
  | _, x :: xs, [] => (x :: xs).length
  | 0, _, _ => 0
  | fuel + 1, a :: as, b :: bs =>
      min (indelGo fuel as bs + (if a = b then 0 else 2))
        (min (1 + indelGo fuel as (b :: bs)) (1 + indelGo fuel (a :: as) bs))

def indelDist (xs ys : List Char) : ℕ := indelGo (xs.length + ys.length) xs ys

/-- Python `round`: round half to even (banker's rounding). -/
def pyRound (q : ℚ) : ℤ :=
  let f := ⌊q⌋
  if q - f < 1/2 then f
  else if 1/2 < q - f then f + 1
  else if f % 2 = 0 then f else f + 1

/-- Python `round` (half to even) of the fraction `n / L`, for `L > 0`,
in integer arithmetic: `n / L` rounds up when the remainder exceeds half
of `L`, down when below, and to the even neighbour on an exact tie. -/
def roundHalfEvenDiv (n L : ℕ) : ℕ :=
  let q := n / L
  let r := n % L
  if 2 * r < L then q
  else if L < 2 * r then q + 1
  else if q % 2 = 0 then q else q + 1

/-- Embeds `fuzz.ratio` on already-extracted character lists: 0–100 integer scale,
`round(100 * (lensum - dist) / lensum)` (the distance never exceeds
`lensum`, see `indelDist_le`). -/
def fuzzRatio (s1 s2 : List Char) : ℕ :=
  let lensum := s1.length + s2.length
  if lensum = 0 then 100
  else roundHalfEvenDiv (100 * (lensum - indelDist s1 s2)) lensum

/-- The duplicate test of `_query_model` (line 329):
`any(fuzz.ratio(clean_title, re.sub(r"[^a-z0-9]", "", ex)) > 85 for ex in exclusion)`. -/
def isDuplicate (clean_title : List Char) (exclusion : List (List Char)) : Bool :=
  exclusion.any (fun ex => decide (85 < fuzzRatio clean_title (stripNonAlnum ex)))

/-- Title extraction of `_query_model` (lines 327–328):
`rec.split(" - ")[0].strip().lower().strip('"')` then `re.sub(r"[^a-z0-9]","",·)`.
Returns the pre-`re.sub` title together with the cleaned title. -/
def extractTitle (rec : List Char) : List Char × List Char :=
  let title := pyStripP (fun c => c = dquote) (pyLower (pyStripWs (splitFirst " - ".toList rec)))
  (title, stripNonAlnum title)

/-! ### Model query engine (`_query_model`) -/

def MAX_ATTEMPTS : ℕ := 3

/-- One completion returned by the text-completion collaborator
(`choices[0].message.content` plus `usage`). -/
structure Completion where
  content : List Char
  prompt_tokens : ℕ
  completion_tokens : ℕ
deriving DecidableEq

/-- Outcome of one API call: `Except.error` models a raised exception. -/
def Resp : Type := Except (List Char) Completion

inductive QueryError where
  /-- An exception raised by the completion call itself. -/
  | api : List Char → QueryError
  /-- `RuntimeError(f"No unique recommendation after {MAX_ATTEMPTS} attempts with {model}")`. -/
  | exhausted : String → QueryError
deriving DecidableEq

structure QueryOk where
  recText : List Char
  usage : Usage
  model : String
deriving DecidableEq

/-- Structured model of the messages `_log` appends to the module log buffer
(timestamps omitted; the dynamic fields are kept). -/
inductive LogMsg where
  | querying (model : String) (attempt : ℕ) (temp : ℚ)
  | duplicate (title : List Char)
  | success (model : String) (cost : ℚ)
  | failure (msg : List Char)
deriving DecidableEq

def exhaustedText (model : String) : List Char :=
  "No unique recommendation after 3 attempts with ".toList ++ model.toList

def errText : QueryError → List Char
  | .api m => m
  | .exhausted model => exhaustedText model

/-- Loop body of `_query_model` over the remaining attempt numbers.  Returns
the result, the list of `(attempt, temperature)` pairs of completion calls
actually made, and the log messages emitted. -/
def queryModelGo (resp : ℕ → Resp) (exclusion : List (List Char)) (model : String) :
    List ℕ → Except QueryError QueryOk × List (ℕ × ℚ) × List LogMsg
  | [] => (.error (.exhausted model), [], [])
  | attempt :: rest =>
    let temp : ℚ := 6/10 + 1/10 * attempt
    match resp attempt with
    | .error e => (.error (.api e), [(attempt, temp)], [.querying model attempt temp])
    | .ok comp =>
      let recText := pyStripWs comp.content
      let t := extractTitle recText
      if isDuplicate t.2 exclusion then
        let out := queryModelGo resp exclusion model rest
        (out.1, (attempt, temp) :: out.2.1,
          .querying model attempt temp :: .duplicate t.1 :: out.2.2)
      else
        (.ok ⟨recText, ⟨comp.prompt_tokens, comp.completion_tokens⟩, model⟩,
          [(attempt, temp)], [.querying model attempt temp])

/-- Embeds `_query_model`: attempts `1, 2, …, MAX_ATTEMPTS` in order. -/
def queryModel (resp : ℕ → Resp) (exclusion : List (List Char)) (model : String) :
    Except QueryError QueryOk × List (ℕ × ℚ) × List LogMsg :=
  queryModelGo resp exclusion model (List.range' 1 MAX_ATTEMPTS)

/-- Attempt `i` returns a completion whose extracted title collides with the
exclusion set. -/
def attemptDuplicate (resp : ℕ → Resp) (excl : List (List Char)) (i : ℕ) : Prop :=
  ∃ c : Completion, resp i = .ok c
    ∧ isDuplicate (extractTitle (pyStripWs c.content)).2 excl = true

/-! ### Track records and the prompt builder (`_construct_prompt`) -/

/-- One row of the unified playlist DataFrame.  `none` models both an
absent column and a null/NaN cell. -/
structure Row where
  id : String
  name : List Char
  artist : List Char
  album : Option (List Char) := none
  tags : Option (List (List Char)) := none
  topic_categories : Option (List (List Char)) := none
  published_at : Option (List Char) := none
  transformed_description : Option (List Char) := none
  danceability : Option ℚ := none
  energy : Option ℚ := none
  tempo : Option ℚ := none
  valence : Option ℚ := none
deriving DecidableEq

/-- Fixed-point decimal rendering of a rational, modelling Python's
`f"{val:.2f}"` / `f"{val:.1f}"` on the corresponding float. -/
def formatFixed (q : ℚ) (d : ℕ) : List Char :=
  let scaled := pyRound (q * (10 ^ d : ℕ))
  let m := scaled.natAbs
  let ip := m / 10 ^ d
  let fp := m % 10 ^ d
  let fpDigits := Nat.toDigits 10 fp
  (if scaled < 0 then ['-'] else [])
    ++ Nat.toDigits 10 ip ++ ['.']
    ++ List.replicate (d - fpDigits.length) '0' ++ fpDigits

/-- The `feats` list built for the four audio-feature columns. -/
def featParts (row : Row) : List (List Char) :=
  (match row.danceability with
    | some v => ["danceability=".toList ++ formatFixed v 2]
    | none => []) ++
  (match row.energy with
    | some v => ["energy=".toList ++ formatFixed v 2]
    | none => []) ++
  (match row.tempo with
    | some v => ["tempo=".toList ++ formatFixed v 1]
    | none => []) ++
  (match row.valence with
    | some v => ["valence=".toList ++ formatFixed v 2]
    | none => [])

/-- One rendered prompt line for a sampled row (the loop body of
`_construct_prompt`, lines 250–298). -/
def renderLine (row : Row) : List Char :=
  let track_info := [squote] ++ row.name ++ [squote] ++ " by ".toList ++ row.artist
  let extras : List (List Char) :=
    (match row.album with
      | some a => if a.isEmpty then [] else ["Album: ".toList ++ a]
      | none => []) ++
    (match row.tags with
      | some ts => if ts.isEmpty then [] else
          ["Tags: ".toList ++ List.intercalate ", ".toList (ts.take 5)]
      | none => []) ++
    (match row.topic_categories with
      | some ts => if ts.isEmpty then [] else
          ["Topics: ".toList ++ List.intercalate ", ".toList (ts.take 3)]
      | none => []) ++
    (match row.published_at with
      | some p => if p.isEmpty then [] else
          ["Published: ".toList ++ (if 'T' ∈ p then p.takeWhile (fun c => c ≠ 'T') else p)]
      | none => []) ++
    (match row.transformed_description with
      | some dsc =>
        if dsc.isEmpty ∨ dsc = "No relevant information.".toList then []
        else ["Context: ".toList ++ (if 100 < dsc.length then dsc.take 97 ++ "...".toList else dsc)]
      | none => []) ++
    (let feats := featParts row
     if feats.isEmpty then [] else ["Features: ".toList ++ List.intercalate ", ".toList feats])
  if extras.isEmpty then "- ".toList ++ track_info
  else "- ".toList ++ track_info ++ " [".toList ++ List.intercalate " | ".toList extras ++ "]".toList

/-- Python `html.escape(s)` (with the default `quote=True`), expressed
character-wise — the source's chain of `str.replace` calls never rewrites
text it has itself inserted, so the two are equal. -/
def escapeChar (c : Char) : List Char :=
  if c = '&' then "&amp;".toList
  else if c = '<' then "&lt;".toList
  else if c = '>' then "&gt;".toList
  else if c = dquote then "&quot;".toList
  else if c = squote then "&#x27;".toList
  else [c]

def htmlEscape (s : List Char) : List Char := s.flatMap escapeChar

/-- Modelled from the spec: `df.sample(sample_size, random_state=42)` delegates
to the external pandas library, whose exact pseudo-random stream is outside
this repository; the spec requires only that it select `sample_size` records
deterministically for a fixed seed.  Modelled as ordering the rows by a
seed-keyed hash of their position and taking the first `k`. -/
def sampleKey (seed i : ℕ) : ℕ := (i * 2654435761 + seed * 40503) % 4294967296

def sampleRows (rows : List Row) (k : ℕ) (seed : ℕ) : List Row :=
  (((rows.enum).insertionSort (fun a b => sampleKey seed a.1 ≤ sampleKey seed b.1)).map
    Prod.snd).take k

/-- Final prompt text assembly of `_construct_prompt` (lines 303–308). -/
def promptText (lines exclusions : List (List Char)) (language : List Char) : List Char :=
  "You are a music curator. Analyze these songs and recommend one new song not listed, in ".toList
    ++ htmlEscape language ++ ".\n\n".toList
    ++ List.intercalate "\n".toList lines
    ++ "\n\nExclude: ".toList
    ++ List.intercalate ", ".toList (exclusions.map (fun s => [dquote] ++ s ++ [dquote]))
    ++ "\nProvide ONLY: Title - Artist - Album".toList

/-- Embeds `_construct_prompt`: sample `min(len(df), 200)` rows with the fixed seed 42,
render one line and one lower-cased exclusion entry per sampled row, in order. -/
def constructPrompt (df : List Row) (language : List Char) : List Char × List (List Char) :=
  let sample_size := min df.length 200
  let sample := sampleRows df sample_size 42
  let pr := sample.foldl
    (fun (acc : List (List Char) × List (List Char)) row =>
      (acc.1 ++ [renderLine row], acc.2 ++ [pyLower row.name])) ([], [])
  (promptText pr.1 pr.2 language, pr.2)

/-! ### Pipeline orchestrator (`process_playlist_and_recommend_song`) -/

/-- The record returned by the video-search collaborator
(`_search_youtube_video` result, or `none` when the search had no items). -/
structure YtInfo where
  video_id : Option (List Char)
  title : List Char
  channel : List Char
  url : List Char
deriving DecidableEq

/-- The `details` dictionary of the result. -/
structure Details where
  error : Option (List Char) := none
  model : Option String := none
  cost_usd : Option ℚ := none
  youtube : Option (Option YtInfo) := none
  logs : List LogMsg := []
deriving DecidableEq

/-- The record handed to `update_recommendation_data`. -/
structure AnalyticsEvent where
  service : String
  playlist_id : String
  recommendation : List Char
  details : Details
  language : List Char
deriving DecidableEq

/-- The structured result of the entry point. -/
structure PipelineResult where
  recommendation : Option (List Char)
  details : Details
deriving DecidableEq

/-- Oracles for the external collaborators of one invocation.
`Except.error` always models a raised exception. -/
structure Env where
  /-- The value of `os.getenv("OPENAI_MODEL", "gpt-4")`: head of `MODELS_TO_TRY`. -/
  primary : String
  /-- Outcome of `_fetch_spotify_dataframe` / `_fetch_youtube_dataframe`. -/
  fetch : Except (List Char) (List Row)
  /-- Per model and per attempt number, the outcome of the completion call. -/
  responses : String → ℕ → Resp
  /-- Outcome of `_search_youtube_video` on a recommendation text. -/
  ytSearch : List Char → Except (List Char) (Option YtInfo)
  /-- Outcome of the `update_recommendation_data` call. -/
  analytics : Except (List Char) Unit

/-- The list `MODELS_TO_TRY`: the configured primary, then the fixed fallback. -/
def MODELS_TO_TRY (primary : String) : List String := [primary, "gpt-3.5-turbo"]

def emptyMsg : List Char := "Playlist data unavailable or empty.".toList

def allFailedMsg : List Char := "Failed to generate recommendation with all models.".toList

/-- The `for model in MODELS_TO_TRY` loop (lines 378–388): on success the
captured recommendation text and `details` (with a copy of the log buffer);
`none` when every model was exhausted.  Any exception from `_query_model`
or `_search_youtube_video` is caught, logged, and the next model tried. -/
def modelLoop (env : Env) (exclusions : List (List Char)) (logs : List LogMsg) :
    List String → Option (List Char × Details) × List LogMsg
  | [] => (none, logs)
  | m :: rest =>
    let q := queryModel (env.responses m) exclusions m
    match q.1 with
    | .error e => modelLoop env exclusions (logs ++ q.2.2 ++ [.failure (errText e)]) rest
    | .ok ok =>
      let cost := calculate_cost ok.usage ok.model
      let logs1 := logs ++ q.2.2 ++ [.success ok.model cost]
      match env.ytSearch ok.recText with
      | .error e => modelLoop env exclusions (logs1 ++ [.failure e]) rest
      | .ok ytInfo =>
        (some (ok.recText,
          { model := some ok.model, cost_usd := some cost,
            youtube := some ytInfo, logs := logs1 }), logs1)

/-- Embeds `process_playlist_and_recommend_song`.  The first component is the
value returned to the caller (`Except.error` = an exception escaped the
entry point); the second is the list of events handed to the analytics
sink; the third is the final state of the module log buffer. -/
def processPlaylist (env : Env) (service playlist_id : String) (language : List Char) :
    Except (List Char) PipelineResult × List AnalyticsEvent × List LogMsg :=
  match env.fetch with
  | .error e => (.error e, [], [])
  | .ok df =>
    if df.isEmpty then
      (.ok ⟨none, { error := some emptyMsg, logs := [.failure emptyMsg] }⟩,
        [], [.failure emptyMsg])
    else
      let pe := constructPrompt df language
      match modelLoop env pe.2 [] (MODELS_TO_TRY env.primary) with
      | (none, logs) =>
        let logs2 := logs ++ [.failure allFailedMsg]
        (.ok ⟨none, { error := some allFailedMsg, logs := logs2 }⟩, [], logs2)
      | (some (recText, details), logs) =>
        let event : AnalyticsEvent := ⟨service, playlist_id, recText, details, language⟩
        let finalLogs :=
          match env.analytics with
          | .ok _ => logs
          | .error m => logs ++ [.failure ("Analytics error: ".toList ++ m)]
        (.ok ⟨some (htmlEscape recText), details⟩, [event], finalLogs)

/-! ### Description sanitizer (`_batch_transform_descriptions`)

The point-wise regex cleaner `_transform_description_regex` maps one
description to one cleaned string; its text output is irrelevant to the
length/alignment claims, so it is passed in as an oracle, as is the
batch completion call (which receives the submitted batch and either
returns the raw response text or raises). -/

/-- Models a `try`/`except` around a fallible computation with a fallback value. -/
def exceptGetD {ε α : Type} : Except ε α → α → α
  | .ok a, _ => a
  | .error _, d => d

/-- Embeds the `range(0, len(l), n)` chunking loop. -/
def chunks (n : ℕ) (l : List (List Char)) : List (List (List Char)) :=
  if l.isEmpty ∨ n = 0 then []
  else l.take n :: chunks n (l.drop n)
termination_by l.length
decreasing_by
  rename_i h
  push_neg at h
  have hl : l.length ≠ 0 := by
    intro hlen
    exact h.1 (List.isEmpty_iff.mpr (List.eq_nil_of_length_eq_zero hlen))
  simp only [List.length_drop]
  omega

/-- Body of the per-batch loop of `_batch_transform_descriptions`
(lines 126–191) for one batch. -/
def transformChunk (api : List (List Char) → Except (List Char) (List Char))
    (regexClean : List Char → List Char) (chunk : List (List Char)) : List (List Char) :=
  let batch1 := chunk.map (fun d => if (pyStripWs d).isEmpty then [] else d)
  let nonEmptyIdx := ((batch1.enum).filter (fun p => ¬ p.2.isEmpty)).map Prod.fst
  if nonEmptyIdx.isEmpty then List.replicate batch1.length []
  else
    let batch2 := (batch1.filter (fun d => ¬ d.isEmpty)).map (List.take 500)
    let tryBody : Except Unit (List (List Char)) := do
      let content ← (api batch2).mapError (fun _ => ())
      let cleaned :=
        ((splitAll "[DESC_END]".toList (pyStripWs content)).map pyStripWs).filter
          (fun d => ¬ d.isEmpty)
      (nonEmptyIdx.zip cleaned).foldlM
        (fun (full : List (List Char)) p =>
          if p.1 < full.length then pure (full.set p.1 p.2) else throw ())
        (List.replicate batch2.length [])
    exceptGetD tryBody (batch2.map (fun d => if d.isEmpty then [] else regexClean d))

/-- Embeds `_batch_transform_descriptions` (default `batch_size=50`). -/
def batch_transform_descriptions (api : List (List Char) → Except (List Char) (List Char))
    (regexClean : List Char → List Char) (descriptions : List (List Char))
    (batch_size : ℕ := 50) : List (List Char) :=
  if descriptions.isEmpty then []
  else (chunks batch_size descriptions).flatMap (transformChunk api regexClean)

/-! ### Projections and concrete environments used in the theorems -/

/-- The value the caller sees: `none` when an exception escaped the entry
point, otherwise the `recommendation` field of the structured result. -/
def resultRec (out : Except (List Char) PipelineResult × List AnalyticsEvent × List LogMsg) :
    Option (Option (List Char)) :=
  match out.1 with
  | .ok r => some r.recommendation
  | .error _ => none

/-- The `details.error` field of the structured result, if any. -/
def resultErr (out : Except (List Char) PipelineResult × List AnalyticsEvent × List LogMsg) :
    Option (List Char) :=
  match out.1 with
  | .ok r => r.details.error
  | .error _ => none

/-- Whether the entry point returned (rather than raised). -/
def resultIsOk (out : Except (List Char) PipelineResult × List AnalyticsEvent × List LogMsg) :
    Bool :=
  match out.1 with
  | .ok _ => true
  | .error _ => false

/-- The characters `html.escape` rewrites that the claim about escaping
mentions. -/
def specialChars : List Char := ['&', '<', '>', dquote]

/-- The lower-cased names of a row list. -/
def exclNames (df : List Row) : List (List Char) := df.map (fun r => pyLower r.name)

def rowW : Row := { id := "1", name := "Blue".toList, artist := "X".toList }

def dfW : List Row := [rowW]

/-- A fully successful invocation: one track, a model answer containing `&`,
a video search that returns no items, analytics that succeeds. -/
def envOk : Env :=
  { primary := "gpt-4"
    fetch := .ok dfW
    responses := fun _ _ => .ok ⟨"Song & Co - A - B".toList, 10, 5⟩
    ytSearch := fun _ => .ok none
    analytics := .ok () }

/-- An invocation whose playlist fetch succeeds with zero items. -/
def envNoData : Env :=
  { primary := "gpt-4"
    fetch := .ok []
    responses := fun _ _ => .error "unused".toList
    ytSearch := fun _ => .error "unused".toList
    analytics := .ok () }

/-- An invocation whose playlist fetch raises a transport error. -/
def envFetchFail : Env :=
  { primary := "gpt-4"
    fetch := .error "connection reset by provenance".toList
    responses := fun _ _ => .error "unused".toList
    ytSearch := fun _ => .error "unused".toList
    analytics := .ok () }

/-- An invocation where the primary model yields a fresh recommendation but
the video search raises, and the fallback model's completion call raises. -/
def envC3 : Env :=
  { primary := "gpt-4"
    fetch := .ok dfW
    responses := fun m _ =>
      if m = "gpt-4" then .ok ⟨"New Song - X - Y".toList, 10, 5⟩
      else .error "service down".toList
    ytSearch := fun _ => .error "quota exceeded".toList
    analytics := .ok () }

/-- The exclusion set the pipeline builds for `dfW`. -/
def exclsW : List (List Char) := (constructPrompt dfW "english".toList).2

/-- The log buffer, details and structured result the pipeline produces on
`envOk` (the cost and temperature terms are left unevaluated on purpose). -/
def logsOkW : List LogMsg :=
  [.querying "gpt-4" 1 (6/10 + 1/10 * ((1 : ℕ) : ℚ)),
   .success "gpt-4" (calculate_cost ⟨10, 5⟩ "gpt-4")]

def detailsOkW : Details :=
  { model := some "gpt-4", cost_usd := some (calculate_cost ⟨10, 5⟩ "gpt-4"),
    youtube := some none, logs := logsOkW }

def resOkW : PipelineResult :=
  ⟨some (htmlEscape (pyStripWs "Song & Co - A - B".toList)), detailsOkW⟩

/-! ### Helper lemmas -/

theorem indelGo_self (fuel : ℕ) (s : List Char) : indelGo fuel s s = 0 := by
  induction s generalizing fuel with
  | nil => cases fuel <;> simp [indelGo]
  | cons a as ih =>
    cases fuel with
    | zero => simp [indelGo]
    | succ f => simp [indelGo, ih f]

theorem indelDist_self (s : List Char) : indelDist s s = 0 := indelGo_self _ s

theorem indelGo_le (fuel : ℕ) (xs ys : List Char) :
    indelGo fuel xs ys ≤ xs.length + ys.length := by
  induction fuel generalizing xs ys with
  | zero => cases xs <;> cases ys <;> simp [indelGo]
  | succ f ih =>
    cases xs with
    | nil => simp [indelGo]
    | cons a as =>
      cases ys with
      | nil => simp [indelGo]
      | cons b bs =>
        have h := ih as (b :: bs)
        simp only [indelGo, List.length_cons]
        have h2 : min (1 + indelGo f as (b :: bs)) (1 + indelGo f (a :: as) bs)
            ≤ 1 + indelGo f as (b :: bs) := Nat.min_le_left _ _
        have h3 := Nat.min_le_right (indelGo f as bs + (if a = b then 0 else 2))
          (min (1 + indelGo f as (b :: bs)) (1 + indelGo f (a :: as) bs))
        refine le_trans h3 (le_trans h2 ?_)
        simp only [List.length_cons] at h
        omega

/-- The indel distance never exceeds the total length, so the numerator of
the ratio is a true subtraction. -/
theorem indelDist_le (xs ys : List Char) : indelDist xs ys ≤ xs.length + ys.length :=
  indelGo_le _ xs ys

theorem queryModelGo_calls_length (resp : ℕ → Resp) (excl : List (List Char)) (model : String) :
    ∀ l : List ℕ, (queryModelGo resp excl model l).2.1.length ≤ l.length := by
  intro l
  induction l with
  | nil => simp [queryModelGo]
  | cons a rest ih =>
    simp only [queryModelGo]
    cases h : resp a with
    | error e => simp
    | ok comp =>
      by_cases hd : isDuplicate (extractTitle (pyStripWs comp.content)).2 excl
      · simp only [hd, if_true, List.length_cons]
        omega
      · simp [hd]

theorem queryModelGo_calls_mem (resp : ℕ → Resp) (excl : List (List Char)) (model : String) :
    ∀ (l : List ℕ) (p : ℕ × ℚ), p ∈ (queryModelGo resp excl model l).2.1 →
      p.1 ∈ l ∧ p.2 = 6/10 + 1/10 * (p.1 : ℚ) := by
  intro l
  induction l with
  | nil => simp [queryModelGo]
  | cons a rest ih =>
    intro p hp
    simp only [queryModelGo] at hp
    cases h : resp a with
    | error e =>
      rw [h] at hp
      simp at hp
      simp [hp]
    | ok comp =>
      rw [h] at hp
      by_cases hd : isDuplicate (extractTitle (pyStripWs comp.content)).2 excl
      · simp only [hd, if_true, List.mem_cons] at hp
        rcases hp with hp | hp
        · simp [hp]
        · rcases ih p hp with ⟨h1, h2⟩
          exact ⟨List.mem_cons_of_mem _ h1, h2⟩
      · simp only [hd] at hp
        simp at hp
        simp [hp]

theorem queryModelGo_all_dup (resp : ℕ → Resp) (excl : List (List Char)) (model : String) :
    ∀ l : List ℕ, (∀ i ∈ l, attemptDuplicate resp excl i) →
      (queryModelGo resp excl model l).1 = .error (.exhausted model) := by
  intro l
  induction l with
  | nil => intro _; simp [queryModelGo]
  | cons a rest ih =>
    intro hall
    obtain ⟨c, hc, hdup⟩ := hall a (List.mem_cons_self a rest)
    simp only [queryModelGo, hc, hdup, if_true]
    exact ih (fun i hi => hall i (List.mem_cons_of_mem _ hi))

theorem setFold_length (fb : List (List Char)) (hf : fb.length = 1)
    (cleaned : List (List Char)) :
    (exceptGetD (List.foldlM (fun (full : List (List Char)) p =>
        if p.1 < full.length then pure (full.set p.1 p.2)
        else (throw () : Except Unit (List (List Char))))
      ([[]]) (([1] : List ℕ).zip cleaned)) fb).length = 1 := by
  cases cleaned with
  | nil => simp [List.foldlM, exceptGetD, Pure.pure, Except.pure]
  | cons c cs =>
    simp [List.foldlM, exceptGetD, throw, throwThe, MonadExceptOf.throw, hf, Bind.bind, Except.bind]

theorem fuzzRatio_self (s : List Char) : fuzzRatio s s = 100 := by
  unfold fuzzRatio
  rcases Nat.eq_zero_or_pos s.length with h | h
  · simp [h]
  · have hne : ¬ (s.length + s.length = 0) := by omega
    have hL : 0 < s.length + s.length := by omega
    simp only [hne, if_false, indelDist_self, Nat.sub_zero, roundHalfEvenDiv]
    rw [Nat.mul_div_cancel 100 hL]
    have hm : 100 * (s.length + s.length) % (s.length + s.length) = 0 :=
      Nat.mul_mod_left _ _
    simp [hm, hL]

theorem escapeChar_length_pos (c : Char) : 1 ≤ (escapeChar c).length := by
  unfold escapeChar
  split_ifs <;> simp

theorem escapeChar_special (c : Char) (h : c ∈ specialChars) : 2 ≤ (escapeChar c).length := by
  simp [specialChars] at h
  rcases h with rfl | rfl | rfl | rfl <;> decide

theorem htmlEscape_length_ge (s : List Char) : s.length ≤ (htmlEscape s).length := by
  induction s with
  | nil => simp [htmlEscape]
  | cons a t ih =>
    have h1 := escapeChar_length_pos a
    simp only [htmlEscape, List.flatMap_cons, List.length_append, List.length_cons] at *
    omega

theorem htmlEscape_longer (s : List Char) (h : ∃ c ∈ s, c ∈ specialChars) :
    s.length < (htmlEscape s).length := by
  induction s with
  | nil => simp at h
  | cons a t ih =>
    rcases h with ⟨c, hc, hsp⟩
    rcases List.mem_cons.mp hc with rfl | hct
    · have h1 := escapeChar_special c hsp
      have h2 := htmlEscape_length_ge t
      simp only [htmlEscape, List.flatMap_cons, List.length_append, List.length_cons] at *
      omega
    · have h1 := escapeChar_length_pos a
      have h2 := ih ⟨c, hct, hsp⟩
      simp only [htmlEscape, List.flatMap_cons, List.length_append, List.length_cons] at *
      omega

theorem htmlEscape_ne (s : List Char) (h : ∃ c ∈ s, c ∈ specialChars) : htmlEscape s ≠ s := by
  intro heq
  have hlt := htmlEscape_longer s h
  rw [heq] at hlt
  omega

theorem sampleRows_length (rows : List Row) (k seed : ℕ) (hk : k ≤ rows.length) :
    (sampleRows rows k seed).length = k := by
  unfold sampleRows
  rw [List.length_take, List.length_map, List.length_insertionSort, List.enum_length]
  omega

theorem sampleRows_subset (rows : List Row) (k seed : ℕ) (r : Row)
    (h : r ∈ sampleRows rows k seed) : r ∈ rows := by
  unfold sampleRows at h
  have h1 := List.mem_of_mem_take h
  rcases List.mem_map.mp h1 with ⟨p, hp, rfl⟩
  rw [List.mem_insertionSort] at hp
  have h3 : p.2 ∈ rows.enum.map Prod.snd := List.mem_map_of_mem Prod.snd hp
  rwa [List.enum_map_snd] at h3

theorem promptFold_snd (rows : List Row) :
    ∀ acc : List (List Char) × List (List Char),
      (rows.foldl (fun (acc : List (List Char) × List (List Char)) row =>
        (acc.1 ++ [renderLine row], acc.2 ++ [pyLower row.name])) acc).2
        = acc.2 ++ rows.map (fun r => pyLower r.name) := by
  induction rows with
  | nil => intro acc; simp
  | cons r rs ih => intro acc; simp [ih]

theorem modelLoop_env_eq (env env' : Env) (hresp : env.responses = env'.responses)
    (hyt : env.ytSearch = env'.ytSearch) (excl : List (List Char)) :
    ∀ (ms : List String) (logs : List LogMsg),
      modelLoop env excl logs ms = modelLoop env' excl logs ms := by
  intro ms
  induction ms with
  | nil => intro logs; rfl
  | cons m rest ih =>
    intro logs
    simp only [modelLoop, hresp, hyt]
    split
    · exact ih _
    · split
      · exact ih _
      · rfl

theorem modelLoop_some_logs (env : Env) (excl : List (List Char)) :
    ∀ (ms : List String) (logs : List LogMsg) (r : List Char) (d : Details) (lg : List LogMsg),
      modelLoop env excl logs ms = (some (r, d), lg) → d.logs = lg := by
  intro ms
  induction ms with
  | nil => intro logs r d lg h; simp [modelLoop] at h
  | cons m rest ih =>
    intro logs r d lg h
    simp only [modelLoop] at h
    split at h
    · exact ih _ r d lg h
    · split at h
      · exact ih _ r d lg h
      · simp only [Prod.mk.injEq, Option.some.injEq] at h
        rcases h with ⟨⟨_, rfl⟩, rfl⟩
        rfl

/-! ### Claim theorems -/

/-- C7: `_calculate_cost` returns
`(prompt_tokens / 1e6 × input_rate) + (completion_tokens / 1e6 × output_rate)`
with the rates of the per-model price table; a model name not in the table
uses the lowest-tier (`gpt-3.5-turbo`) rates; and 1,000,000 prompt tokens with
0 completion tokens on `gpt-4` (input rate 3.0) costs exactly 3.0. -/
theorem C7_calculate_cost :
    (∀ u : Usage, calculate_cost u "gpt-4"
        = (u.prompt_tokens : ℚ) / 1000000 * 3 + (u.completion_tokens : ℚ) / 1000000 * 12)
    ∧ (∀ u : Usage, calculate_cost u "gpt-3.5-turbo"
        = (u.prompt_tokens : ℚ) / 1000000 * (1/2) + (u.completion_tokens : ℚ) / 1000000 * (3/2))
    ∧ (∀ (u : Usage) (m : String), MODEL_PRICING.lookup m = none →
        calculate_cost u m
          = (u.prompt_tokens : ℚ) / 1000000 * (1/2) + (u.completion_tokens : ℚ) / 1000000 * (3/2))
    ∧ calculate_cost ⟨1000000, 0⟩ "gpt-4" = 3 := by
  refine ⟨fun u => rfl, fun u => rfl, fun u m h => ?_, by norm_num [calculate_cost, MODEL_PRICING]⟩
  unfold calculate_cost
  rw [h]
  rfl

/-- Witness for C7: an unknown model name is priced at the lowest tier. -/
theorem C7_calculate_cost_witness :
    calculate_cost ⟨2000000, 2000000⟩ "unknown-model" = 4 := by
  have h := C7_calculate_cost.2.2.1 ⟨2000000, 2000000⟩ "unknown-model" (by decide)
  rw [h]
  norm_num

/-- C5: the duplicate test rejects a candidate iff some exclusion entry,
normalized by keeping only lower-case alphanumerics, scores strictly more
than 85 on the 0–100 edit-distance ratio against the normalized title;
the ratio of any string with itself is 100, so a candidate whose normalized
title equals some entry's normalization is always rejected. -/
theorem C5_duplicate_filter :
    (∀ (t : List Char) (excl : List (List Char)),
        isDuplicate t excl = true ↔ ∃ ex ∈ excl, 85 < fuzzRatio t (stripNonAlnum ex))
    ∧ (∀ s : List Char, fuzzRatio s s = 100)
    ∧ (∀ (t : List Char) (excl : List (List Char)) (ex : List Char),
        ex ∈ excl → stripNonAlnum ex = t → isDuplicate t excl = true) := by
  have hiff : ∀ (t : List Char) (excl : List (List Char)),
      isDuplicate t excl = true ↔ ∃ ex ∈ excl, 85 < fuzzRatio t (stripNonAlnum ex) := by
    intro t excl
    simp [isDuplicate, List.any_eq_true]
  refine ⟨hiff, fuzzRatio_self, fun t excl ex hmem heq => ?_⟩
  rw [hiff]
  refine ⟨ex, hmem, ?_⟩
  rw [heq, fuzzRatio_self]
  norm_num

/-- Witness for C5: a title differing from an exclusion entry only in
punctuation and case is rejected. -/
theorem C5_duplicate_filter_witness :
    isDuplicate (extractTitle "Hello, World! - A - B".toList).2 ["hello world".toList] = true := by
  exact C5_duplicate_filter.2.2 _ _ ("hello world".toList) (by simp) (by decide)

/-- C1 (code bug): on an input that mixes an empty and a non-empty
description inside one batch, `_batch_transform_descriptions` returns a
1-element list instead of a 2-element one, on the model path and on the
fallback path alike (line 137 re-filters `batch` and drops the empty
slots), contradicting its own docstring and the spec invariant. -/
theorem C1_sanitizer_drops_empty_slots :
    ∀ (api : List (List Char) → Except (List Char) (List Char))
      (regexClean : List Char → List Char),
      (batch_transform_descriptions api regexClean [[], "hi".toList] 50).length = 1
        ∧ ([[], "hi".toList] : List (List Char)).length = 2 := by
  intro api regexClean
  refine ⟨?_, rfl⟩
  have hchunks : chunks 50 [[], "hi".toList] = [[[], "hi".toList]] := by
    rw [chunks]
    norm_num
    rw [chunks]
    simp
  rw [batch_transform_descriptions]
  simp only [List.isEmpty_cons, Bool.false_eq_true, if_false, hchunks, List.flatMap_cons,
    List.flatMap_nil, List.append_nil]
  have hb1 : ([[], "hi".toList].map (fun d => if (pyStripWs d).isEmpty then [] else d))
      = [[], "hi".toList] := by decide
  have hidx : ((([[], "hi".toList] : List (List Char)).enum).filter
      (fun p => ¬ p.2.isEmpty)).map Prod.fst = [1] := by decide
  have hb2 : ((([[], "hi".toList] : List (List Char)).filter
      (fun d => ¬ d.isEmpty)).map (List.take 500)) = ["hi".toList] := by decide
  simp only [transformChunk, hb1, hidx, hb2]
  rw [if_neg (by decide : ¬ (([1] : List ℕ).isEmpty = true))]
  rcases h : api ["hi".toList] with e | content
  · simp [h, Except.mapError, Bind.bind, Except.bind, exceptGetD]
  · simp only [h, Except.mapError, Bind.bind, Except.bind]
    exact setFold_length _ (by simp) _

/-- C6: `_query_model` makes at most 3 completion attempts, attempt `i` uses
sampling temperature `0.6 + 0.1 * i`, all-duplicate responses on every
attempt produce the exhaustion error instead of a duplicate result, and the
orchestrator reacts to any `_query_model` error by moving on to the next
model in the list instead of aborting. -/
theorem C6_query_model :
    ∀ (resp : ℕ → Resp) (excl : List (List Char)) (model : String),
      ((queryModel resp excl model).2.1.length ≤ 3)
      ∧ (∀ p ∈ (queryModel resp excl model).2.1,
          p.2 = 6/10 + 1/10 * (p.1 : ℚ) ∧ 1 ≤ p.1 ∧ p.1 ≤ 3)
      ∧ ((∀ i, 1 ≤ i → i ≤ 3 → attemptDuplicate resp excl i) →
          (queryModel resp excl model).1 = .error (.exhausted model))
      ∧ (∀ (env : Env) (logs : List LogMsg) (m : String) (rest : List String) (e : QueryError),
          (queryModel (env.responses m) excl m).1 = .error e →
          modelLoop env excl logs (m :: rest)
            = modelLoop env excl
                (logs ++ (queryModel (env.responses m) excl m).2.2 ++ [.failure (errText e)])
                rest) := by
  intro resp excl model
  have hrange : List.range' 1 MAX_ATTEMPTS = [1, 2, 3] := rfl
  refine ⟨?_, ?_, ?_, ?_⟩
  · have h := queryModelGo_calls_length resp excl model (List.range' 1 MAX_ATTEMPTS)
    simpa [queryModel, hrange] using h
  · intro p hp
    have h := queryModelGo_calls_mem resp excl model (List.range' 1 MAX_ATTEMPTS) p
      (by simpa [queryModel] using hp)
    rw [hrange] at h
    rcases h with ⟨h1, h2⟩
    simp at h1
    refine ⟨h2, ?_, ?_⟩ <;> omega
  · intro hall
    apply queryModelGo_all_dup
    intro i hi
    rw [hrange] at hi
    simp at hi
    rcases hi with rfl | rfl | rfl <;> exact hall _ (by norm_num) (by norm_num)
  · intro env logs m rest e h
    simp only [modelLoop, h]

/-- Witness for C6: a model that always answers with a title already in the
exclusion set is reported as exhausted. -/
theorem C6_query_model_witness :
    (queryModel (fun _ => .ok ⟨"Blue - X - Y".toList, 1, 1⟩) ["blue".toList] "gpt-4").1
      = .error (.exhausted "gpt-4") :=
  (C6_query_model (fun _ => .ok ⟨"Blue - X - Y".toList, 1, 1⟩) ["blue".toList] "gpt-4").2.2.1
    (fun i _ _ => ⟨⟨"Blue - X - Y".toList, 1, 1⟩, rfl, by decide⟩)

/-- C8: `_construct_prompt` samples exactly `min(len(df), 200)` records with
the fixed seed 42, the exclusion set has that same size, and two invocations
on identical snapshot content produce identical prompt text and exclusion
sets (two-run determinism of the pure embedding). -/
theorem C8_prompt_determinism :
    ∀ (df df2 : List Row) (lang : List Char),
      (sampleRows df (min df.length 200) 42).length = min df.length 200
      ∧ ((constructPrompt df lang).2).length = min df.length 200
      ∧ (df = df2 → constructPrompt df lang = constructPrompt df2 lang) := by
  intro df df2 lang
  have hlen := sampleRows_length df (min df.length 200) 42 (Nat.min_le_left _ _)
  refine ⟨hlen, ?_, fun h => by rw [h]⟩
  show ((constructPrompt df lang).2).length = min df.length 200
  unfold constructPrompt
  simp only
  rw [promptFold_snd]
  simp [hlen]

/-- Witness for C8 on a one-row snapshot. -/
theorem C8_prompt_determinism_witness :
    ((constructPrompt dfW "english".toList).2).length = min dfW.length 200
    ∧ constructPrompt dfW "english".toList = constructPrompt dfW "english".toList :=
  ⟨(C8_prompt_determinism dfW dfW "english".toList).2.1,
   (C8_prompt_determinism dfW dfW "english".toList).2.2 rfl⟩

/-- C9: the exclusion set is exactly the lower-cased `name` of each sampled
record in sampling order, and every entry comes from a record of the
snapshot (no entries from unsampled or foreign records). -/
theorem C9_exclusion_set :
    ∀ (df : List Row) (lang : List Char),
      (constructPrompt df lang).2 = exclNames (sampleRows df (min df.length 200) 42)
      ∧ ∀ e ∈ (constructPrompt df lang).2, e ∈ exclNames df := by
  intro df lang
  have heq : (constructPrompt df lang).2
      = exclNames (sampleRows df (min df.length 200) 42) := by
    unfold constructPrompt exclNames
    simp only
    rw [promptFold_snd]
    simp
  refine ⟨heq, fun e he => ?_⟩
  rw [heq] at he
  unfold exclNames at he ⊢
  rcases List.mem_map.mp he with ⟨r, hr, rfl⟩
  exact List.mem_map_of_mem _ (sampleRows_subset df _ 42 r hr)

/-- Witness for C9 on a one-row snapshot. -/
theorem C9_exclusion_set_witness :
    (constructPrompt dfW "english".toList).2 = exclNames (sampleRows dfW (min dfW.length 200) 42)
    ∧ "blue".toList ∈ exclNames dfW :=
  ⟨(C9_exclusion_set dfW "english".toList).1,
   (C9_exclusion_set dfW "english".toList).2 "blue".toList (by decide)⟩

/-- C2 (amended): once playlist fetching returns a snapshot, the entry point
never raises: it returns a structured result whose `recommendation` is a
string or null, and on failure `details` carries an error message and a
non-empty log buffer.  (The original claim is refuted by
`C2_counterexample`: a transport error during fetching propagates.) -/
theorem C2_amended :
    ∀ (env : Env) (service pid : String) (lang : List Char) (df : List Row),
      env.fetch = .ok df →
      ∃ res : PipelineResult,
        (processPlaylist env service pid lang).1 = .ok res
        ∧ (res.recommendation = none →
            ∃ msg, res.details.error = some msg ∧ res.details.logs ≠ []) := by
  intro env service pid lang df h
  unfold processPlaylist
  simp only [h]
  by_cases hdf : df.isEmpty
  · rw [if_pos hdf]
    exact ⟨_, rfl, fun _ => ⟨emptyMsg, rfl, by simp⟩⟩
  · rw [if_neg hdf]
    rcases hml : modelLoop env (constructPrompt df lang).2 [] (MODELS_TO_TRY env.primary)
      with ⟨fst, lg⟩
    cases fst with
    | none =>
      exact ⟨_, rfl, fun _ => ⟨allFailedMsg, rfl, by simp⟩⟩
    | some pr =>
      rcases pr with ⟨recText, details⟩
      exact ⟨_, rfl, fun hcontra => by simp at hcontra⟩

/-- Counterexample to C2 as stated: a provenance transport failure during
playlist fetching escapes `process_playlist_and_recommend_song` as an
exception instead of a structured result (lines 365-369 are outside any
`try`). -/
theorem C2_counterexample :
    (processPlaylist envFetchFail "spotify" "p" "english".toList).1
      = .error "connection reset by provenance".toList := rfl

/-- Witness for C2 (amended): an empty snapshot returns a structured
result. -/
theorem C2_amended_witness :
    resultIsOk (processPlaylist envNoData "spotify" "p" "english".toList) = true := by
  obtain ⟨res, hres, _⟩ := C2_amended envNoData "spotify" "p" "english".toList [] rfl
  unfold resultIsOk
  rw [hres]

/-- C4 (amended): the analytics sink receives exactly one event on a
successful invocation and none on the `no_data` or failure paths (the
original claim that every invocation hands one event is refuted by
`C4_counterexample`); any exception raised by the analytics call is
swallowed — the caller-visible result and the event list do not depend on
the analytics outcome — and is logged to the final buffer. -/
theorem C4_amended :
    ∀ (env : Env) (service pid : String) (lang : List Char),
      (∀ (res : PipelineResult) (s : List Char),
          (processPlaylist env service pid lang).1 = .ok res → res.recommendation = some s →
          (processPlaylist env service pid lang).2.1.length = 1)
      ∧ (∀ res : PipelineResult,
          (processPlaylist env service pid lang).1 = .ok res → res.recommendation = none →
          (processPlaylist env service pid lang).2.1 = [])
      ∧ (∀ x : Except (List Char) Unit,
          (processPlaylist { env with analytics := x } service pid lang).1
              = (processPlaylist env service pid lang).1
          ∧ (processPlaylist { env with analytics := x } service pid lang).2.1
              = (processPlaylist env service pid lang).2.1)
      ∧ (∀ (res : PipelineResult) (s m : List Char),
          (processPlaylist env service pid lang).1 = .ok res → res.recommendation = some s →
          env.analytics = .error m →
          (processPlaylist env service pid lang).2.2
            = res.details.logs ++ [.failure ("Analytics error: ".toList ++ m)]) := by
  intro env service pid lang
  refine ⟨?_, ?_, ?_, ?_⟩
  · intro res s h1 h2
    unfold processPlaylist at h1 ⊢
    cases hf : env.fetch with
    | error e => rw [hf] at h1; simp at h1
    | ok df =>
      simp only [hf] at h1 ⊢
      by_cases hdf : df.isEmpty
      · rw [if_pos hdf] at h1
        simp at h1
        subst h1
        simp at h2
      · rw [if_neg hdf] at h1 ⊢
        rcases hml : modelLoop env (constructPrompt df lang).2 [] (MODELS_TO_TRY env.primary)
          with ⟨fst, lg⟩
        rw [hml] at h1
        cases fst with
        | none =>
          simp at h1
          subst h1
          simp at h2
        | some pr =>
          rcases pr with ⟨recText, details⟩
          rfl
  · intro res h1 h2
    unfold processPlaylist at h1 ⊢
    cases hf : env.fetch with
    | error e => rw [hf] at h1
    | ok df =>
      simp only [hf] at h1 ⊢
      by_cases hdf : df.isEmpty
      · rw [if_pos hdf]
      · rw [if_neg hdf] at h1 ⊢
        rcases hml : modelLoop env (constructPrompt df lang).2 [] (MODELS_TO_TRY env.primary)
          with ⟨fst, lg⟩
        rw [hml] at h1
        cases fst with
        | none => rfl
        | some pr =>
          rcases pr with ⟨recText, details⟩
          simp at h1
          subst h1
          simp at h2
  · intro x
    obtain ⟨pr, ft, rs, yt, an⟩ := env
    unfold processPlaylist
    cases hf : ft with
    | error e => exact ⟨rfl, rfl⟩
    | ok df =>
      simp only
      by_cases hdf : df.isEmpty
      · rw [if_pos hdf, if_pos hdf]
        exact ⟨rfl, rfl⟩
      · have hmleq := modelLoop_env_eq ⟨pr, ft, rs, yt, x⟩ ⟨pr, ft, rs, yt, an⟩ rfl rfl
          (constructPrompt df lang).2 (MODELS_TO_TRY pr) []
        rw [hf] at hmleq
        simp only [eq_false hdf, if_false]
        rw [hmleq]
        rcases hml : modelLoop ⟨pr, .ok df, rs, yt, an⟩ (constructPrompt df lang).2 []
          (MODELS_TO_TRY pr) with ⟨fst, lg⟩
        cases fst with
        | none => exact ⟨rfl, rfl⟩
        | some p2 =>
          rcases p2 with ⟨recText, details⟩
          exact ⟨rfl, rfl⟩
  · intro res s m h1 h2 han
    unfold processPlaylist at h1 ⊢
    cases hf : env.fetch with
    | error e => rw [hf] at h1; simp at h1
    | ok df =>
      simp only [hf] at h1 ⊢
      by_cases hdf : df.isEmpty
      · rw [if_pos hdf] at h1
        simp at h1
        subst h1
        simp at h2
      · rw [if_neg hdf] at h1 ⊢
        rcases hml : modelLoop env (constructPrompt df lang).2 [] (MODELS_TO_TRY env.primary)
          with ⟨fst, lg⟩
        rw [hml] at h1
        cases fst with
        | none =>
          simp at h1
          subst h1
          simp at h2
        | some p2 =>
          rcases p2 with ⟨recText, details⟩
          simp at h1
          subst h1
          have hlogs : details.logs = lg :=
            modelLoop_some_logs env (constructPrompt df lang).2 (MODELS_TO_TRY env.primary)
              [] recText details lg hml
          rw [han]
          simp [hlogs]

/-- Counterexample to C4 as stated: a `no_data` invocation hands zero
Recommendation Events to the analytics sink (the empty-playlist path
returns before `update_recommendation_data` is reached). -/
theorem C4_counterexample :
    (processPlaylist envNoData "spotify" "p" "english".toList).2.1 = []
    ∧ resultRec (processPlaylist envNoData "spotify" "p" "english".toList) = some none :=
  ⟨rfl, rfl⟩

/-- Witness for C4 (amended): the successful invocation emits exactly one
analytics event. -/
theorem C4_amended_witness :
    (processPlaylist envOk "spotify" "p" "english".toList).2.1.length = 1 :=
  (C4_amended envOk "spotify" "p" "english".toList).1 resOkW
    (htmlEscape (pyStripWs "Song & Co - A - B".toList)) rfl rfl

/-- C10: on every success path the returned `recommendation` is the
HTML-escaped form of the model text handed to analytics, and whenever that
raw text contains `&`, `<`, `>` or `"` the returned string differs from the
text stored in analytics. -/
theorem C10_escape :
    ∀ (env : Env) (service pid : String) (lang : List Char) (s : List Char),
      resultRec (processPlaylist env service pid lang) = some (some s) →
      ((processPlaylist env service pid lang).2.1.map (fun e => htmlEscape e.recommendation) = [s]
       ∧ ∀ raw ∈ (processPlaylist env service pid lang).2.1.map (fun e => e.recommendation),
           (∃ c ∈ raw, c ∈ specialChars) → s ≠ raw) := by
  intro env service pid lang s h
  unfold resultRec at h
  unfold processPlaylist at h ⊢
  cases hf : env.fetch with
  | error e =>
    rw [hf] at h
    simp at h
  | ok df =>
    simp only [hf] at h ⊢
    by_cases hdf : df.isEmpty
    · rw [if_pos hdf] at h
      simp at h
    · rw [if_neg hdf] at h ⊢
      rcases hml : modelLoop env (constructPrompt df lang).2 [] (MODELS_TO_TRY env.primary)
        with ⟨fst, lg⟩
      rw [hml] at h
      cases fst with
      | none => simp at h
      | some pr =>
        rcases pr with ⟨recText, details⟩
        simp at h
        subst h
        refine ⟨rfl, ?_⟩
        intro raw hraw hsp
        simp at hraw
        subst hraw
        exact htmlEscape_ne raw hsp

/-- Witness for C10: a recommendation containing `&` is escaped in the
returned value and kept raw in the analytics event. -/
theorem C10_escape_witness :
    ((processPlaylist envOk "spotify" "p" "english".toList).2.1.map
        (fun e => htmlEscape e.recommendation)
      = [htmlEscape (pyStripWs "Song & Co - A - B".toList)])
    ∧ htmlEscape (pyStripWs "Song & Co - A - B".toList)
        ≠ pyStripWs "Song & Co - A - B".toList := by
  have h := C10_escape envOk "spotify" "p" "english".toList
    (htmlEscape (pyStripWs "Song & Co - A - B".toList)) rfl
  refine ⟨h.1, h.2 (pyStripWs "Song & Co - A - B".toList) ?_ ?_⟩
  · have heq : (processPlaylist envOk "spotify" "p" "english".toList).2.1.map
        (fun e => e.recommendation) = [pyStripWs "Song & Co - A - B".toList] := rfl
    rw [heq]
    exact List.mem_singleton.mpr rfl
  · exact ⟨'&', by decide, by decide⟩

/-- C3 (amended): when `_search_youtube_video` raises on a model's accepted
recommendation, that recommendation is discarded and the orchestrator falls
through to the next model exactly as on a query failure (so a link-resolver
failure on the last model yields overall failure, refuting the original
claim — see `C3_counterexample`); the recommendation is returned with an
absent link only when the search returns without raising. -/
theorem C3_amended :
    ∀ (env : Env) (excl : List (List Char)) (logs : List LogMsg) (m : String)
      (rest : List String) (q : QueryOk) (calls : List (ℕ × ℚ)) (qlogs : List LogMsg),
      queryModel (env.responses m) excl m = (.ok q, calls, qlogs) →
      (∀ e : List Char, env.ytSearch q.recText = .error e →
        modelLoop env excl logs (m :: rest)
          = modelLoop env excl
              (logs ++ qlogs ++ [.success q.model (calculate_cost q.usage q.model)]
                ++ [.failure e])
              rest)
      ∧ (∀ yt : Option YtInfo, env.ytSearch q.recText = .ok yt →
          modelLoop env excl logs (m :: rest)
            = (some (q.recText,
                { model := some q.model, cost_usd := some (calculate_cost q.usage q.model),
                  youtube := some yt,
                  logs := logs ++ qlogs
                    ++ [.success q.model (calculate_cost q.usage q.model)] }),
               logs ++ qlogs ++ [.success q.model (calculate_cost q.usage q.model)])) := by
  intro env excl logs m rest q calls qlogs hq
  have h1 : (queryModel (env.responses m) excl m).1 = .ok q := by rw [hq]
  have h2 : (queryModel (env.responses m) excl m).2.2 = qlogs := by rw [hq]
  constructor
  · intro e hyt
    simp only [modelLoop, h1, h2, hyt]
  · intro yt hyt
    simp only [modelLoop, h1, h2, hyt]

/-- Counterexample to C3 as stated: the primary model yields a
non-duplicate recommendation, the video search raises, the fallback model
raises, and the invocation reports overall failure with a null
recommendation — the accepted recommendation was discarded. -/
theorem C3_counterexample :
    (queryModel (envC3.responses "gpt-4") exclsW "gpt-4").1
        = .ok ⟨"New Song - X - Y".toList, ⟨10, 5⟩, "gpt-4"⟩
    ∧ envC3.ytSearch "New Song - X - Y".toList = .error "quota exceeded".toList
    ∧ resultRec (processPlaylist envC3 "spotify" "p" "english".toList) = some none
    ∧ resultErr (processPlaylist envC3 "spotify" "p" "english".toList) = some allFailedMsg :=
  ⟨rfl, rfl, rfl, rfl⟩

/-- Witness for C3 (amended): on `envC3` the first model's recommendation
is discarded after the video-search failure and the loop continues with the
fallback model. -/
theorem C3_amended_witness :
    modelLoop envC3 exclsW [] ["gpt-4", "gpt-3.5-turbo"]
      = modelLoop envC3 exclsW
          ([] ++ [LogMsg.querying "gpt-4" 1 (6/10 + 1/10 * ((1 : ℕ) : ℚ))]
            ++ [.success "gpt-4" (calculate_cost ⟨10, 5⟩ "gpt-4")]
            ++ [.failure "quota exceeded".toList])
          ["gpt-3.5-turbo"] :=
  (C3_amended envC3 exclsW [] "gpt-4" ["gpt-3.5-turbo"]
      ⟨"New Song - X - Y".toList, ⟨10, 5⟩, "gpt-4"⟩
      [(1, 6/10 + 1/10 * ((1 : ℕ) : ℚ))]
      [.querying "gpt-4" 1 (6/10 + 1/10 * ((1 : ℕ) : ℚ))] rfl).1
    "quota exceeded".toList rfl

end SongSuggest
